import Mathlib

set_option maxHeartbeats 1000000

namespace Manifestor

/-! Shallow embedding of the manifestor service (src/types/mod.rs,
src/manifest/mod.rs, src/cache/mod.rs, src/api/mod.rs). Pure code is
translated to Lean functions; the two TTL caches become explicit state
passed through the handler models; HTTP and clock effects become
parameters describing the outcome the environment would produce. -/

/-- JSON values, modelling serde_json::Value. Numbers are modelled as
integers, which covers everything the code inspects (the only numeric
accessor used anywhere is as_u64). Objects are association lists with
unique keys; iteration order is the stored order. -/
inductive Json where
  | null
  | bool (b : Bool)
  | num (n : Int)
  | str (s : String)
  | arr (items : List Json)
  | obj (fields : List (String × Json))

/-- First-match lookup in an object field list (serde_json maps hold unique keys). -/
def lookupField : List (String × Json) → String → Option Json
  | [], _ => none
  | (k, v) :: rest, key => if k == key then some v else lookupField rest key

/-- Value::get with a string index: a field of an object, none on any other value. -/
def Json.get : Json → String → Option Json
  | Json.obj fields, key => lookupField fields key
  | _, _ => none

/-- Value::as_str. -/
def Json.asStr : Json → Option String
  | Json.str s => some s
  | _ => none

/-- Value::as_u64: defined exactly on nonnegative integers that fit in 64 bits. -/
def Json.asU64 : Json → Option Nat
  | Json.num n => if 0 ≤ n ∧ n < 2 ^ 64 then some n.toNat else none
  | _ => none

/-- Value::as_object, returned as the underlying field list. -/
def Json.asObject : Json → Option (List (String × Json))
  | Json.obj fields => some fields
  | _ => none

/-- src/types/mod.rs MinecraftVersion (hash is serialized as sha1). -/
structure MinecraftVersion where
  id : String
  hash : String
  release_time : String
  url : String
  version_type : String
deriving DecidableEq

/-- src/types/mod.rs VersionManifest. -/
structure VersionManifest where
  latest_release : String
  latest_snapshot : String
  versions : List MinecraftVersion
deriving DecidableEq

/-- src/types/mod.rs Downloadable; size is a u64. -/
structure Downloadable where
  url : String
  sha1 : String
  size : Nat
deriving DecidableEq

/-- src/types/mod.rs AssetIndex. -/
structure AssetIndex where
  id : String
  url : String
  sha1 : String
  size : Nat
deriving DecidableEq

/-- src/types/mod.rs Library. -/
structure Library where
  name : String
  url : Option String
  sha1 : Option String
  size : Option Nat
  path : Option String
deriving DecidableEq

/-- src/types/mod.rs NativeLibrary. -/
structure NativeLibrary where
  name : String
  classifier : String
  url : String
  sha1 : String
  size : Nat
  path : String
deriving DecidableEq

/-- src/types/mod.rs ExtractionHint. -/
structure ExtractionHint where
  path : String
  requires_extraction : Bool
deriving DecidableEq

/-- src/types/mod.rs NormalizedArguments. -/
structure NormalizedArguments where
  game : List String
  jvm : List String
deriving DecidableEq

/-- src/types/mod.rs NormalizedVersion; java_version is a u8, kept as a Nat
below 256 (the cast v as u8 in the source truncates modulo 256). -/
structure NormalizedVersion where
  id : String
  release_time : Option String
  java_version : Option Nat
  client_jar : Option Downloadable
  server_jar : Option Downloadable
  asset_index : Option AssetIndex
  libraries : List Library
  natives : List NativeLibrary
  arguments : NormalizedArguments
  requires_extraction : List ExtractionHint
deriving DecidableEq

/-- The extract_downloadable closure of parse_version_json
(src/manifest/mod.rs lines 122 to 128): all three of url, sha1, size must
be present with the right types, otherwise no Downloadable at all. -/
def extract_downloadable (v : Json) : Option Downloadable :=
  match (v.get "url").bind Json.asStr, (v.get "sha1").bind Json.asStr,
        (v.get "size").bind Json.asU64 with
  | some url, some sha1, some size => some { url := url, sha1 := sha1, size := size }
  | _, _, _ => none

/-- One iteration of the inner natives loop of parse_version_json
(src/manifest/mod.rs lines 156 to 188): the contribution of a single
(platform, classifier) pair of the natives map of one library entry. -/
def processNativePair (lib : Json) (name : String) (classifier_val : Json) :
    List NativeLibrary × List ExtractionHint :=
  match classifier_val.asStr with
  | none => ([], [])
  | some classifier_str =>
    match (lib.get "downloads").bind (fun d => d.get "classifiers") with
    | none => ([], [])
    | some downloads =>
      match downloads.get classifier_str with
      | none => ([], [])
      | some native =>
        match (native.get "url").bind Json.asStr, (native.get "sha1").bind Json.asStr,
              (native.get "size").bind Json.asU64, (native.get "path").bind Json.asStr with
        | some url, some sha1, some size, some path =>
          ([{ name := name, classifier := classifier_str, url := url,
              sha1 := sha1, size := size, path := path }],
           [{ path := path,
              requires_extraction := ((lib.get "extract").bind (fun e => e.get "exclude")).isSome }])
        | _, _, _, _ => ([], [])

/-- The natives-map loop over the (platform, classifier) pairs of one
library entry, in map order. -/
def processNatives (lib : Json) (name : String) :
    List (String × Json) → List NativeLibrary × List ExtractionHint
  | [] => ([], [])
  | (_os, classifier_val) :: rest =>
    let head := processNativePair lib name classifier_val
    let tail := processNatives lib name rest
    (head.1 ++ tail.1, head.2 ++ tail.2)

/-- The body of the libraries loop for one entry (src/manifest/mod.rs lines
152 to 197): a natives branch (when the natives key holds an object) and
an artifact branch otherwise. -/
def processLib (lib : Json) : List Library × List NativeLibrary × List ExtractionHint :=
  let name := ((lib.get "name").bind Json.asStr).getD ""
  match (lib.get "natives").bind Json.asObject with
  | some natives_map =>
    let pairs := processNatives lib name natives_map
    ([], pairs.1, pairs.2)
  | none =>
    match (lib.get "downloads").bind (fun d => d.get "artifact") with
    | some artifact =>
      ([{ name := name,
          url := (artifact.get "url").bind Json.asStr,
          sha1 := (artifact.get "sha1").bind Json.asStr,
          size := (artifact.get "size").bind Json.asU64,
          path := (artifact.get "path").bind Json.asStr }], [], [])
    | none => ([], [], [])

/-- The libraries loop of parse_version_json (src/manifest/mod.rs lines 151
to 199), pushing into the three result vectors in order. -/
def processLibs : List Json → List Library × List NativeLibrary × List ExtractionHint
  | [] => ([], [], [])
  | lib :: rest =>
    let head := processLib lib
    let tail := processLibs rest
    (head.1 ++ tail.1, head.2.1 ++ tail.2.1, head.2.2 ++ tail.2.2)

/-- The per-entry contribution of the extract_args loop (src/manifest/mod.rs
lines 230 to 245): bare strings as-is; for objects, a string value or the
string items of an array value; everything else contributes nothing. -/
def argContribution (entry : Json) : List String :=
  match entry with
  | Json.str s => [s]
  | Json.obj fields =>
    match lookupField fields "value" with
    | some (Json.str val) => [val]
    | some (Json.arr items) => items.filterMap Json.asStr
    | _ => []
  | _ => []

/-- The loop of extract_args over the entries of an array. -/
def extractArgsLoop : List Json → List String
  | [] => []
  | entry :: rest => argContribution entry ++ extractArgsLoop rest

/-- src/manifest/mod.rs extract_args (lines 226 to 250). -/
def extract_args (value : Option Json) : List String :=
  match value with
  | some (Json.arr entries) => extractArgsLoop entries
  | _ => []

/-- Rust str::split_whitespace: split on whitespace, dropping empty tokens. -/
def split_whitespace (s : String) : List String :=
  (s.split Char.isWhitespace).filter (fun t => !(t == ""))

/-- src/manifest/mod.rs parse_version_json (lines 109 to 224). It returns a
Result whose error type is a static string, but no path of the source
produces the Err constructor. -/
def parse_version_json (version_json : Json) : Except String NormalizedVersion :=
  let id := ((version_json.get "id").bind Json.asStr).getD ""
  let release_time := (version_json.get "releaseTime").bind Json.asStr
  let java_version :=
    (((version_json.get "javaVersion").bind (fun v => v.get "majorVersion")).bind
      Json.asU64).map (fun v => v % 256)
  let client_jar :=
    ((version_json.get "downloads").bind (fun d => d.get "client")).bind extract_downloadable
  let server_jar :=
    ((version_json.get "downloads").bind (fun d => d.get "server")).bind extract_downloadable
  let asset_index := (version_json.get "assetIndex").map (fun a =>
    { id := ((a.get "id").bind Json.asStr).getD ""
      url := ((a.get "url").bind Json.asStr).getD ""
      sha1 := ((a.get "sha1").bind Json.asStr).getD ""
      size := ((a.get "size").bind Json.asU64).getD 0 : AssetIndex })
  let libs :=
    match version_json.get "libraries" with
    | some (Json.arr entries) => processLibs entries
    | _ => ([], [], [])
  let arguments :=
    match version_json.get "arguments" with
    | some args =>
      { game := extract_args (args.get "game"), jvm := extract_args (args.get "jvm")
        : NormalizedArguments }
    | none =>
      match (version_json.get "minecraftArguments").bind Json.asStr with
      | some args => { game := split_whitespace args, jvm := [] }
      | none => { game := [], jvm := [] }
  Except.ok
    { id := id
      release_time := release_time
      java_version := java_version
      client_jar := client_jar
      server_jar := server_jar
      asset_index := asset_index
      libraries := libs.1
      natives := libs.2.1
      arguments := arguments
      requires_extraction := libs.2.2 }

/-- Deserialization of the intermediate MojangVersion struct of
fetch_version_manifest (src/manifest/mod.rs lines 21 to 29): an object
whose id, url, releaseTime and type fields are present strings; no sha1
field is captured. Unknown fields are ignored, as serde does by default. -/
structure MojangVersion where
  id : String
  url : String
  release_time : String
  version_type : String
deriving DecidableEq

/-- Deserialization of MojangManifest (src/manifest/mod.rs lines 31 to 35):
latest is a map from strings to strings, versions an array of MojangVersion. -/
structure MojangManifest where
  latest : List (String × String)
  versions : List MojangVersion
deriving DecidableEq

def deserMojangVersion (j : Json) : Option MojangVersion :=
  match j with
  | Json.obj fields =>
    match (lookupField fields "id").bind Json.asStr,
          (lookupField fields "url").bind Json.asStr,
          (lookupField fields "releaseTime").bind Json.asStr,
          (lookupField fields "type").bind Json.asStr with
    | some id, some url, some rt, some ty =>
      some { id := id, url := url, release_time := rt, version_type := ty }
    | _, _, _, _ => none
  | _ => none

def deserStringPairs : List (String × Json) → Option (List (String × String))
  | [] => some []
  | (k, v) :: rest =>
    match v.asStr, deserStringPairs rest with
    | some s, some tail => some ((k, s) :: tail)
    | _, _ => none

def deserVersionList : List Json → Option (List MojangVersion)
  | [] => some []
  | j :: rest =>
    match deserMojangVersion j, deserVersionList rest with
    | some v, some tail => some (v :: tail)
    | _, _ => none

def deserMojangManifest (j : Json) : Option MojangManifest :=
  match j with
  | Json.obj fields =>
    match (lookupField fields "latest").bind Json.asObject,
          lookupField fields "versions" with
    | some latestFields, some (Json.arr vs) =>
      match deserStringPairs latestFields, deserVersionList vs with
      | some latest, some versions => some { latest := latest, versions := versions }
      | _, _ => none
    | _, _ => none
  | _ => none

/-- String lookup in the deserialized latest map. -/
def lookupStr : List (String × String) → String → Option String
  | [], _ => none
  | (k, v) :: rest, key => if k == key then some v else lookupStr rest key

/-- Model of fetch_version_manifest (src/manifest/mod.rs lines 18 to 59)
applied to the upstream response body it received. NOTE: the source builds
each MinecraftVersion from a MojangVersion that carries no sha1, and the
struct literal at lines 51 to 56 omits the mandatory hash field outright
(it does not compile as Rust); modelled here with hash left empty, the only
value derivable from the data the function captures. -/
def fetch_version_manifest (body : Json) : Option VersionManifest :=
  (deserMojangManifest body).map (fun resp =>
    { latest_release := (lookupStr resp.latest "release").getD ""
      latest_snapshot := (lookupStr resp.latest "snapshot").getD ""
      versions := resp.versions.map (fun v =>
        { id := v.id, hash := "", release_time := v.release_time,
          url := v.url, version_type := v.version_type }) })

/-- src/cache/mod.rs ManifestCache state. Timestamps are whole seconds: the
source compares Instant differences against Duration::from_secs values. -/
structure ManifestCache where
  data : Option VersionManifest
  updated_at : Option Nat
deriving DecidableEq

/-- src/cache/mod.rs TTL: 50 minutes, in seconds. -/
def TTL : Nat := 60 * 50

/-- src/cache/mod.rs get_cached_manifest (lines 20 to 43). The fetch
argument is the manifest the supplied refresh procedure would produce; the
returned Bool records whether that procedure was invoked. The timestamp
stored on refresh is the now captured at entry, exactly as the source
stores the now taken before the fetch. -/
def get_cached_manifest (st : ManifestCache) (now : Nat) (fetch : VersionManifest) :
    VersionManifest × ManifestCache × Bool :=
  match st.data, st.updated_at with
  | some data, some updated =>
    if now - updated < TTL then (data, st, false)
    else (fetch, { data := some fetch, updated_at := some now }, true)
  | _, _ => (fetch, { data := some fetch, updated_at := some now }, true)

/-- The empty manifest substituted by get_versions on upstream failure
(src/api/mod.rs lines 19 to 23). -/
def empty_manifest : VersionManifest :=
  { latest_release := "", latest_snapshot := "", versions := [] }

/-- src/api/mod.rs get_versions (lines 15 to 28). The upstream argument is
the outcome fetch_version_manifest would report; the closure passed to the
cache swallows the error into empty_manifest. The handler type is
Result of Json or (status, message), and the source only ever builds Ok. -/
def get_versions (st : ManifestCache) (now : Nat)
    (upstream : Except Unit VersionManifest) :
    Except (Nat × String) VersionManifest × ManifestCache × Bool :=
  let fetched :=
    match upstream with
    | Except.ok m => m
    | Except.error _ => empty_manifest
  let r := get_cached_manifest st now fetched
  (Except.ok r.1, r.2)

/-- src/manifest/mod.rs VERSION_TTL: 30 minutes, in seconds. -/
def VERSION_TTL : Nat := 60 * 30

/-- The per-version cache (src/manifest/mod.rs line 14): a map from version
id to a normalized version and its insertion time, as an association list
with unique keys. -/
abbrev VersionCache := List (String × NormalizedVersion × Nat)

def cacheLookup : VersionCache → String → Option (NormalizedVersion × Nat)
  | [], _ => none
  | (k, v, t) :: rest, key => if k == key then some (v, t) else cacheLookup rest key

/-- HashMap::insert: replaces any previous entry under the key. -/
def cacheInsert (cache : VersionCache) (key : String) (v : NormalizedVersion)
    (now : Nat) : VersionCache :=
  (key, v, now) :: cache.filter (fun e => !(e.1 == key))

/-- Outcome of the detail-document HTTP GET in get_version_by_id
(src/manifest/mod.rs lines 87 to 93). httpError is a response that arrived
but whose status is an error: there the source runs
resp.error_for_status().unwrap(), which panics. -/
inductive DetailFetch where
  | sendErr
  | httpError
  | parseErr
  | ok (body : Json)

/-- The three response shapes get_version_by_id builds: a 200 JSON body, a
502 with a fixed message, or a 404 carrying the missing id. -/
inductive VResponse where
  | okJson (v : NormalizedVersion)
  | badGateway (msg : String)
  | notFound (version_id : String)
deriving DecidableEq

/-- The part of get_version_by_id after the cache check (src/manifest/mod.rs
lines 72 to 106). Returns none exactly when the source panics (the unwrap
on error_for_status); otherwise the response, the new cache state, and
whether the detail-document GET was issued. -/
def get_version_miss (cache : VersionCache) (now : Nat)
    (manifestFetch : Except Unit VersionManifest) (detail : DetailFetch)
    (version_id : String) : Option (VResponse × VersionCache × Bool) :=
  match manifestFetch with
  | Except.error _ => some (VResponse.badGateway "Error obteniendo manifest", cache, false)
  | Except.ok manifest =>
    match (manifest.versions.find? (fun v => v.id == version_id)).map (fun v => v.url) with
    | none => some (VResponse.notFound version_id, cache, false)
    | some _version_url =>
      match detail with
      | DetailFetch.sendErr =>
        some (VResponse.badGateway "Error descargando JSON de la versión", cache, true)
      | DetailFetch.httpError => none
      | DetailFetch.parseErr =>
        some (VResponse.badGateway "Error parseando JSON de la versión", cache, true)
      | DetailFetch.ok version_json =>
        match parse_version_json version_json with
        | Except.error msg => some (VResponse.badGateway msg, cache, true)
        | Except.ok result =>
          some (VResponse.okJson result, cacheInsert cache version_id result now, true)

/-- src/manifest/mod.rs get_version_by_id (lines 61 to 107): cache check
first, then the miss path. -/
def get_version_by_id (cache : VersionCache) (now : Nat)
    (manifestFetch : Except Unit VersionManifest) (detail : DetailFetch)
    (version_id : String) : Option (VResponse × VersionCache × Bool) :=
  match cacheLookup cache version_id with
  | some (cached, timestamp) =>
    if now - timestamp < VERSION_TTL then some (VResponse.okJson cached, cache, false)
    else get_version_miss cache now manifestFetch detail version_id
  | none => get_version_miss cache now manifestFetch detail version_id

/-! Concrete fixtures used by the theorems below. -/

def demo_version : MinecraftVersion :=
  { id := "1.0", hash := "h", release_time := "2020-01-01T00:00:00Z",
    url := "https://example/1.0.json", version_type := "release" }

def demo_manifest : VersionManifest :=
  { latest_release := "1.0", latest_snapshot := "", versions := [demo_version] }

def demo_norm : NormalizedVersion :=
  { id := "1.0", release_time := none, java_version := none, client_jar := none,
    server_jar := none, asset_index := none, libraries := [], natives := [],
    arguments := { game := [], jvm := [] }, requires_extraction := [] }

/-- C1: on the version-detail route a response that arrives with an HTTP
error status hits resp.error_for_status().unwrap() and panics (modelled as
none) instead of producing the 502 the spec promises; the sibling failure
modes (send error, body-parse error) do return 502 as specified. -/
theorem c1_detail_http_error_status_panics :
    get_version_by_id [] 0 (Except.ok demo_manifest) DetailFetch.httpError "1.0" = none ∧
    get_version_by_id [] 0 (Except.ok demo_manifest) DetailFetch.sendErr "1.0" =
      some (VResponse.badGateway "Error descargando JSON de la versión", [], true) ∧
    get_version_by_id [] 0 (Except.ok demo_manifest) DetailFetch.parseErr "1.0" =
      some (VResponse.badGateway "Error parseando JSON de la versión", [], true) :=
  ⟨rfl, rfl, rfl⟩

def c2_doc : Json := Json.obj
  [("latest", Json.obj [("release", Json.str "1.0"), ("snapshot", Json.str "1.0")]),
   ("versions", Json.arr [Json.obj
     [("id", Json.str "1.0"),
      ("url", Json.str "https://example/1.0.json"),
      ("releaseTime", Json.str "2020-01-01T00:00:00Z"),
      ("type", Json.str "release"),
      ("sha1", Json.str "abc123")]])]

/-- C2: the fetcher accepts c2_doc, whose single version entry carries
sha1 "abc123" in the source JSON, yet the produced MinecraftVersion has an
empty hash: the content_hash field does not round-trip (the deserialized
MojangVersion never captures sha1, and the MinecraftVersion construction in
the source omits the hash field altogether). -/
theorem c2_content_hash_not_roundtripped :
    fetch_version_manifest c2_doc = some
      { latest_release := "1.0", latest_snapshot := "1.0",
        versions := [{ id := "1.0", hash := "", release_time := "2020-01-01T00:00:00Z",
                       url := "https://example/1.0.json", version_type := "release" }] } ∧
    ((c2_doc.get "versions").bind (fun v =>
        match v with
        | Json.arr (entry :: _) => (entry.get "sha1").bind Json.asStr
        | _ => none)) = some "abc123" :=
  ⟨rfl, rfl⟩

/-- C3 counterexample: on the non-object input null, parse_version_json
succeeds with the all-default NormalizedVersion instead of signaling an
error, so it is not the case that every non-object input yields an error. -/
theorem c3_non_object_input_still_succeeds :
    parse_version_json Json.null = Except.ok
      { id := "", release_time := none, java_version := none, client_jar := none,
        server_jar := none, asset_index := none, libraries := [], natives := [],
        arguments := { game := [], jvm := [] }, requires_extraction := [] } :=
  rfl

/-- C3 (amended): the normalizer never signals failure on any input, object
or not; every JSON value, including every non-object, produces Ok. -/
theorem c3_parse_never_fails (j : Json) : (parse_version_json j).isOk = true :=
  rfl

/-- C4: when the top-level manifest cache holds no fresh entry and the
upstream fetch fails, the manifest route still answers 200 with the empty
manifest, stores that empty manifest in the cache stamped with the current
time, and every read within the full TTL after that returns it again
without invoking the refresh procedure. -/
theorem c4_manifest_failure_cached_as_empty (st : ManifestCache) (now : Nat)
    (hstale : ∀ m t, st.data = some m → st.updated_at = some t → TTL ≤ now - t) :
    get_versions st now (Except.error ()) =
      (Except.ok empty_manifest,
       { data := some empty_manifest, updated_at := some now }, true) ∧
    ∀ t2 upstream, now ≤ t2 → t2 < now + TTL →
      get_versions { data := some empty_manifest, updated_at := some now } t2 upstream =
        (Except.ok empty_manifest,
         { data := some empty_manifest, updated_at := some now }, false) := by
  constructor
  · obtain ⟨data, updated⟩ := st
    cases data with
    | none => cases updated <;> rfl
    | some m =>
      cases updated with
      | none => rfl
      | some t =>
        have h := hstale m t rfl rfl
        simp only [get_versions, get_cached_manifest]
        rw [if_neg (by omega)]
  · intro t2 upstream h1 h2
    simp only [get_versions, get_cached_manifest]
    rw [if_pos (by omega)]

/-- C4 witness: the theorem applied to the initial empty cache at time 0,
with the follow-up read at time 1. -/
theorem c4_witness :
    get_versions { data := none, updated_at := none } 0 (Except.error ()) =
      (Except.ok empty_manifest,
       { data := some empty_manifest, updated_at := some 0 }, true) ∧
    get_versions { data := some empty_manifest, updated_at := some 0 } 1 (Except.error ()) =
      (Except.ok empty_manifest,
       { data := some empty_manifest, updated_at := some 0 }, false) := by
  have h := c4_manifest_failure_cached_as_empty { data := none, updated_at := none } 0
    (fun m t hm ht => by simp at hm)
  exact ⟨h.1, h.2 1 (Except.error ()) (by omega) (by norm_num [TTL])⟩

/-- C5: both caches use strict-inequality freshness with their stated TTLs
(50 and 30 minutes). A manifest entry stored at t and read strictly before
t + TTL is returned unchanged without invoking the refresh procedure; read
at or after t + TTL, the refresh result replaces it. A per-version entry
stored at t and read strictly before t + VERSION_TTL is returned unchanged
with no fetch; at or after t + VERSION_TTL the handler runs the full miss
path instead of returning the stored value. -/
theorem c5_cache_ttl_semantics :
    (TTL = 50 * 60 ∧ VERSION_TTL = 30 * 60) ∧
    (∀ st m t now fetch, st.data = some m → st.updated_at = some t → t ≤ now →
      (now < t + TTL → get_cached_manifest st now fetch = (m, st, false)) ∧
      (t + TTL ≤ now → get_cached_manifest st now fetch =
        (fetch, { data := some fetch, updated_at := some now }, true))) ∧
    (∀ cache version_id v t now manifestFetch detail,
      cacheLookup cache version_id = some (v, t) → t ≤ now →
      (now < t + VERSION_TTL →
        get_version_by_id cache now manifestFetch detail version_id =
          some (VResponse.okJson v, cache, false)) ∧
      (t + VERSION_TTL ≤ now →
        get_version_by_id cache now manifestFetch detail version_id =
          get_version_miss cache now manifestFetch detail version_id)) := by
  refine ⟨⟨by norm_num [TTL], by norm_num [VERSION_TTL]⟩, ?_, ?_⟩
  · intro st m t now fetch hd hu hle
    obtain ⟨data, updated⟩ := st
    simp only at hd hu
    subst hd; subst hu
    constructor
    · intro h
      simp only [get_cached_manifest]
      rw [if_pos (by omega)]
    · intro h
      simp only [get_cached_manifest]
      rw [if_neg (by omega)]
  · intro cache version_id v t now manifestFetch detail hl hle
    constructor
    · intro h
      simp only [get_version_by_id, hl]
      rw [if_pos (by omega)]
    · intro h
      simp only [get_version_by_id, hl]
      rw [if_neg (by omega)]

/-- C5 witness: the manifest cache holds demo_manifest stored at 100, read
at 3099 (fresh, 100 + TTL = 3100) and at 3100 (expired); the per-version
cache holds demo_norm stored at 100, read at 1999 (fresh, 100 + VERSION_TTL
= 1900... read at 1899) and at 1900 (expired, equal to the miss path). -/
theorem c5_witness :
    get_cached_manifest { data := some demo_manifest, updated_at := some 100 } 3099
        empty_manifest =
      (demo_manifest, { data := some demo_manifest, updated_at := some 100 }, false) ∧
    get_cached_manifest { data := some demo_manifest, updated_at := some 100 } 3100
        empty_manifest =
      (empty_manifest, { data := some empty_manifest, updated_at := some 3100 }, true) ∧
    get_version_by_id [("1.0", demo_norm, 100)] 1899 (Except.error ())
        DetailFetch.sendErr "1.0" =
      some (VResponse.okJson demo_norm, [("1.0", demo_norm, 100)], false) ∧
    get_version_by_id [("1.0", demo_norm, 100)] 1900 (Except.error ())
        DetailFetch.sendErr "1.0" =
      get_version_miss [("1.0", demo_norm, 100)] 1900 (Except.error ())
        DetailFetch.sendErr "1.0" := by
  refine ⟨?_, ?_, ?_, ?_⟩
  · exact (c5_cache_ttl_semantics.2.1 _ demo_manifest 100 3099 empty_manifest rfl rfl
      (by omega)).1 (by norm_num [TTL])
  · exact (c5_cache_ttl_semantics.2.1 _ demo_manifest 100 3100 empty_manifest rfl rfl
      (by omega)).2 (by norm_num [TTL])
  · exact (c5_cache_ttl_semantics.2.2 [("1.0", demo_norm, 100)] "1.0" demo_norm 100 1899
      (Except.error ()) DetailFetch.sendErr rfl (by omega)).1 (by norm_num [VERSION_TTL])
  · exact (c5_cache_ttl_semantics.2.2 [("1.0", demo_norm, 100)] "1.0" demo_norm 100 1900
      (Except.error ()) DetailFetch.sendErr rfl (by omega)).2 (by norm_num [VERSION_TTL])

/-- C6: the client_jar and server_jar of a parsed version are exactly the
extract_downloadable of the downloads.client and downloads.server entries,
and extract_downloadable yields a Downloadable precisely when url (a
string), sha1 (a string) and size (a u64) are all present, in which case
every field is the source value; a record is never half-filled. -/
theorem c6_downloads_all_or_nothing (j : Json) (nv : NormalizedVersion)
    (h : parse_version_json j = Except.ok nv) :
    nv.client_jar =
      ((j.get "downloads").bind (fun d => d.get "client")).bind extract_downloadable ∧
    nv.server_jar =
      ((j.get "downloads").bind (fun d => d.get "server")).bind extract_downloadable ∧
    ∀ dv : Json,
      ((∃ a, extract_downloadable dv = some a) ↔
        (∃ u, (dv.get "url").bind Json.asStr = some u) ∧
        (∃ s, (dv.get "sha1").bind Json.asStr = some s) ∧
        (∃ n, (dv.get "size").bind Json.asU64 = some n)) ∧
      ∀ a, extract_downloadable dv = some a →
        (dv.get "url").bind Json.asStr = some a.url ∧
        (dv.get "sha1").bind Json.asStr = some a.sha1 ∧
        (dv.get "size").bind Json.asU64 = some a.size := by
  have hnv : nv = (parse_version_json j).toOption.getD demo_norm := by
    rw [h]; rfl
  refine ⟨?_, ?_, ?_⟩
  · rw [hnv]; rfl
  · rw [hnv]; rfl
  · intro dv
    constructor
    · unfold extract_downloadable
      cases hu : (dv.get "url").bind Json.asStr <;>
        cases hs : (dv.get "sha1").bind Json.asStr <;>
        cases hn : (dv.get "size").bind Json.asU64 <;> simp
    · intro a ha
      clear h hnv
      unfold extract_downloadable at ha
      cases hu : (dv.get "url").bind Json.asStr <;>
        cases hs : (dv.get "sha1").bind Json.asStr <;>
        cases hn : (dv.get "size").bind Json.asU64 <;>
        rw [hu, hs, hn] at ha <;>
        first
          | exact Option.noConfusion ha
          | (injection ha with ha2; subst ha2; exact ⟨rfl, rfl, rfl⟩)

def c6_doc : Json := Json.obj
  [("downloads", Json.obj
     [("client", Json.obj
        [("url", Json.str "https://example/client.jar"),
         ("size", Json.num 1000)])])]

def c6_nv : NormalizedVersion :=
  { id := "", release_time := none, java_version := none, client_jar := none,
    server_jar := none, asset_index := none, libraries := [], natives := [],
    arguments := { game := [], jvm := [] }, requires_extraction := [] }

/-- C6 witness: the theorem applied to a detail document whose
downloads.client has url and size but no sha1; the parsed client_jar is the
all-or-nothing extraction, which is none here. -/
theorem c6_witness :
    c6_nv.client_jar =
      ((c6_doc.get "downloads").bind (fun d => d.get "client")).bind extract_downloadable :=
  (c6_downloads_all_or_nothing c6_doc c6_nv rfl).1

/-- Each (platform, classifier) pair contributes natives and extraction
hints with pointwise equal paths. -/
theorem processNativePair_paths (lib : Json) (name : String) (cv : Json) :
    (processNativePair lib name cv).1.map NativeLibrary.path =
      (processNativePair lib name cv).2.map ExtractionHint.path := by
  unfold processNativePair
  repeat' split
  all_goals rfl

/-- The natives-map loop preserves the path correspondence. -/
theorem processNatives_paths (lib : Json) (name : String) :
    ∀ ps : List (String × Json),
      (processNatives lib name ps).1.map NativeLibrary.path =
        (processNatives lib name ps).2.map ExtractionHint.path
  | [] => rfl
  | (_os, cv) :: rest => by
    simp only [processNatives, List.map_append]
    rw [processNativePair_paths, processNatives_paths lib name rest]

/-- One library entry preserves the path correspondence. -/
theorem processLib_paths (lib : Json) :
    (processLib lib).2.1.map NativeLibrary.path =
      (processLib lib).2.2.map ExtractionHint.path := by
  unfold processLib
  cases (lib.get "natives").bind Json.asObject with
  | some natives_map => exact processNatives_paths lib _ natives_map
  | none =>
    cases (lib.get "downloads").bind (fun d => d.get "artifact") <;> rfl

/-- The libraries loop preserves the path correspondence. -/
theorem processLibs_paths :
    ∀ libs : List Json,
      (processLibs libs).2.1.map NativeLibrary.path =
        (processLibs libs).2.2.map ExtractionHint.path
  | [] => rfl
  | lib :: rest => by
    simp only [processLibs, List.map_append]
    rw [processLib_paths, processLibs_paths rest]

/-- C7: in every parsed version the natives and requires_extraction
sequences pair up one-for-one with equal paths; a (platform, classifier)
pair whose classifier resolves under downloads.classifiers to an entry
holding url, sha1, size and path emits exactly one NativeLibrary and one
ExtractionHint with that same path, whose requires_extraction is the
presence of an exclude key under the extract directive; a pair whose
classifier does not resolve contributes nothing to either sequence. -/
theorem c7_native_pair_contributions :
    (∀ j nv, parse_version_json j = Except.ok nv →
      nv.natives.length = nv.requires_extraction.length ∧
      nv.natives.map NativeLibrary.path = nv.requires_extraction.map ExtractionHint.path) ∧
    (∀ lib name classifier_val classifier_str native url sha1 size path,
      classifier_val.asStr = some classifier_str →
      ((lib.get "downloads").bind (fun d => d.get "classifiers")).bind
        (fun d => d.get classifier_str) = some native →
      (native.get "url").bind Json.asStr = some url →
      (native.get "sha1").bind Json.asStr = some sha1 →
      (native.get "size").bind Json.asU64 = some size →
      (native.get "path").bind Json.asStr = some path →
      processNativePair lib name classifier_val =
        ([{ name := name, classifier := classifier_str, url := url, sha1 := sha1,
            size := size, path := path }],
         [{ path := path,
            requires_extraction :=
              ((lib.get "extract").bind (fun e => e.get "exclude")).isSome }])) ∧
    (∀ lib name classifier_val,
      (∀ classifier_str, classifier_val.asStr = some classifier_str →
        ((lib.get "downloads").bind (fun d => d.get "classifiers")).bind
          (fun d => d.get classifier_str) = none) →
      processNativePair lib name classifier_val = ([], [])) := by
  refine ⟨?_, ?_, ?_⟩
  · intro j nv h
    simp only [parse_version_json, Except.ok.injEq] at h
    subst h
    have hmap :
        (match j.get "libraries" with
          | some (Json.arr entries) => processLibs entries
          | _ => (([], [], []) : List Library × List NativeLibrary × List ExtractionHint)
          ).2.1.map NativeLibrary.path =
        (match j.get "libraries" with
          | some (Json.arr entries) => processLibs entries
          | _ => (([], [], []) : List Library × List NativeLibrary × List ExtractionHint)
          ).2.2.map ExtractionHint.path := by
      cases j.get "libraries" with
      | none => rfl
      | some x => cases x <;> first | rfl | exact processLibs_paths _
    refine ⟨?_, hmap⟩
    have := congrArg List.length hmap
    simpa using this
  · intro lib name classifier_val classifier_str native url sha1 size path
      hcv hlookup hu hs hn hp
    cases classifier_val with
    | str s =>
      simp only [Json.asStr, Option.some.injEq] at hcv
      subst hcv
      cases hd : (lib.get "downloads").bind (fun d => d.get "classifiers") with
      | none => rw [hd] at hlookup; exact Option.noConfusion hlookup
      | some downloads =>
        rw [hd, Option.some_bind] at hlookup
        have h1 : (Json.str s).asStr = some s := rfl
        unfold processNativePair
        rw [h1, hd]
        simp only [hlookup, hu, hs, hn, hp]
    | null => exact Option.noConfusion hcv
    | bool b => exact Option.noConfusion hcv
    | num n => exact Option.noConfusion hcv
    | arr items => exact Option.noConfusion hcv
    | obj fields => exact Option.noConfusion hcv
  · intro lib name classifier_val hnone
    unfold processNativePair
    cases hcv : classifier_val.asStr with
    | none => rfl
    | some cs =>
      have h0 := hnone cs hcv
      cases hd : (lib.get "downloads").bind (fun d => d.get "classifiers") with
      | none => rfl
      | some downloads =>
        rw [hd, Option.some_bind] at h0
        simp only [h0]

def c7_native : Json := Json.obj
  [("url", Json.str "https://example/lwjgl-linux.jar"),
   ("sha1", Json.str "deadbeef"),
   ("size", Json.num 2048),
   ("path", Json.str "org/lwjgl/linux.jar")]

def c7_lib : Json := Json.obj
  [("name", Json.str "org.lwjgl"),
   ("natives", Json.obj
     [("linux", Json.str "natives-linux"), ("osx", Json.str "natives-osx")]),
   ("downloads", Json.obj [("classifiers", Json.obj [("natives-linux", c7_native)])]),
   ("extract", Json.obj [("exclude", Json.arr [Json.str "META-INF/"])])]

/-- C7 witness: for c7_lib, the resolvable linux pair emits exactly one
native and one hint sharing the path, with requires_extraction true since
an exclude key is present; the osx pair, whose classifier is absent from
downloads.classifiers, contributes nothing. -/
theorem c7_witness :
    processNativePair c7_lib "org.lwjgl" (Json.str "natives-linux") =
      ([{ name := "org.lwjgl", classifier := "natives-linux",
          url := "https://example/lwjgl-linux.jar", sha1 := "deadbeef",
          size := 2048, path := "org/lwjgl/linux.jar" }],
       [{ path := "org/lwjgl/linux.jar", requires_extraction := true }]) ∧
    processNativePair c7_lib "org.lwjgl" (Json.str "natives-osx") = ([], []) := by
  constructor
  · exact c7_native_pair_contributions.2.1 c7_lib "org.lwjgl" (Json.str "natives-linux")
      "natives-linux" c7_native "https://example/lwjgl-linux.jar" "deadbeef" 2048
      "org/lwjgl/linux.jar" rfl rfl rfl rfl rfl rfl
  · exact c7_native_pair_contributions.2.2 c7_lib "org.lwjgl" (Json.str "natives-osx")
      (fun cs hcs => by
        simp only [Json.asStr, Option.some.injEq] at hcs
        subst hcs
        rfl)

/-- The extract_args loop distributes over append: it is an in-order
flattening of per-entry contributions. -/
theorem extractArgsLoop_append : ∀ xs ys : List Json,
    extractArgsLoop (xs ++ ys) = extractArgsLoop xs ++ extractArgsLoop ys
  | [], _ => rfl
  | x :: xs, ys => by
    simp only [List.cons_append, extractArgsLoop, List.append_eq,
      extractArgsLoop_append xs ys, List.append_assoc]

/-- Json.asStr undoes Json.str across a list. -/
theorem filterMap_asStr_map_str : ∀ items : List String,
    (items.map Json.str).filterMap Json.asStr = items
  | [] => rfl
  | s :: rest => by
    simp only [List.map_cons, List.filterMap_cons, Json.asStr,
      filterMap_asStr_map_str rest]

/-- C8: new-format argument arrays flatten in order; bare strings pass
through as-is; an object whose value is a string contributes that string
and an object whose value is an array of strings contributes them all,
whatever else (rules included) the object carries; a parsed document with
an arguments key gets game and jvm from exactly this extraction; the
claim's concrete mixed game array normalizes as stated for every rules
content. -/
theorem c8_arguments_flattening :
    (∀ xs ys, extract_args (some (Json.arr (xs ++ ys))) =
      extract_args (some (Json.arr xs)) ++ extract_args (some (Json.arr ys))) ∧
    (∀ s, extract_args (some (Json.arr [Json.str s])) = [s]) ∧
    (∀ fields val, lookupField fields "value" = some (Json.str val) →
      extract_args (some (Json.arr [Json.obj fields])) = [val]) ∧
    (∀ fields items, lookupField fields "value" = some (Json.arr (items.map Json.str)) →
      extract_args (some (Json.arr [Json.obj fields])) = items) ∧
    (∀ j args nv, j.get "arguments" = some args → parse_version_json j = Except.ok nv →
      nv.arguments = { game := extract_args (args.get "game"),
                       jvm := extract_args (args.get "jvm") }) ∧
    (∀ rules, extract_args (some (Json.arr
        [Json.str "--foo",
         Json.obj [("rules", rules), ("value", Json.str "--bar")],
         Json.obj [("value", Json.arr [Json.str "--baz", Json.str "--qux"])]])) =
      ["--foo", "--bar", "--baz", "--qux"]) := by
  refine ⟨?_, ?_, ?_, ?_, ?_, ?_⟩
  · intro xs ys
    exact extractArgsLoop_append xs ys
  · intro s
    rfl
  · intro fields val h
    simp only [extract_args, extractArgsLoop, argContribution, h, List.append_nil]
  · intro fields items h
    simp only [extract_args, extractArgsLoop, argContribution, h, List.append_nil]
    exact filterMap_asStr_map_str items
  · intro j args nv h1 h2
    simp only [parse_version_json, Except.ok.injEq] at h2
    subst h2
    simp only [h1]
  · intro rules
    rfl

/-- C8 witness: the theorem applied to a one-object array whose value is a
single string, and to one whose value is an array of two strings. -/
theorem c8_witness :
    extract_args (some (Json.arr [Json.obj [("value", Json.str "--demo")]])) = ["--demo"] ∧
    extract_args (some (Json.arr
      [Json.obj [("value", Json.arr [Json.str "--a", Json.str "--b"])]])) = ["--a", "--b"] :=
  ⟨c8_arguments_flattening.2.2.1 [("value", Json.str "--demo")] "--demo" rfl,
   c8_arguments_flattening.2.2.2.1 [("value", Json.arr [Json.str "--a", Json.str "--b"])]
     ["--a", "--b"] rfl⟩

/-- C9: when the per-version cache has no fresh entry for the requested id
and the fetched manifest lists no version whose id equals it exactly, the
handler answers NotFound, leaves the cache untouched, and never issues the
detail-document fetch (the outcome is the same for every possible detail
response). -/
theorem c9_unknown_id_notfound (cache : VersionCache) (now : Nat)
    (manifest : VersionManifest) (detail : DetailFetch) (version_id : String)
    (hcache : ∀ v t, cacheLookup cache version_id = some (v, t) → VERSION_TTL ≤ now - t)
    (hid : ∀ v, v ∈ manifest.versions → v.id ≠ version_id) :
    get_version_by_id cache now (Except.ok manifest) detail version_id =
      some (VResponse.notFound version_id, cache, false) := by
  have hfind : manifest.versions.find? (fun v => v.id == version_id) = none := by
    rw [List.find?_eq_none]
    intro v hv
    simpa using hid v hv
  have hmiss : get_version_miss cache now (Except.ok manifest) detail version_id =
      some (VResponse.notFound version_id, cache, false) := by
    unfold get_version_miss
    simp only [hfind, Option.map_none']
  rcases hl : cacheLookup cache version_id with _ | ⟨v, t⟩
  · simp only [get_version_by_id, hl]
    exact hmiss
  · have ht := hcache v t hl
    simp only [get_version_by_id, hl]
    rw [if_neg (Nat.not_lt.mpr ht)]
    exact hmiss

/-- C9 witness: unknown id 2.0 against demo_manifest (which lists only 1.0)
with an empty cache yields NotFound with no detail fetch. -/
theorem c9_witness :
    get_version_by_id [] 0 (Except.ok demo_manifest) DetailFetch.sendErr "2.0" =
      some (VResponse.notFound "2.0", [], false) :=
  c9_unknown_id_notfound [] 0 demo_manifest DetailFetch.sendErr "2.0"
    (fun v t h => by exact Option.noConfusion h)
    (fun v hv => by
      simp only [demo_manifest, demo_version, List.mem_singleton] at hv
      subst hv
      decide)

/-- On the miss path, the cache either stays unchanged or gains exactly the
successful insertion. -/
theorem get_version_miss_cache_change (cache : VersionCache) (now : Nat)
    (manifestFetch : Except Unit VersionManifest) (detail : DetailFetch)
    (version_id : String) (r : VResponse) (c : VersionCache) (a : Bool)
    (h : get_version_miss cache now manifestFetch detail version_id = some (r, c, a)) :
    c = cache ∨ ∃ v, r = VResponse.okJson v ∧ c = cacheInsert cache version_id v now := by
  unfold get_version_miss at h
  split at h
  · simp only [Option.some.injEq, Prod.mk.injEq] at h
    exact Or.inl h.2.1.symm
  · split at h
    · simp only [Option.some.injEq, Prod.mk.injEq] at h
      exact Or.inl h.2.1.symm
    · split at h
      · simp only [Option.some.injEq, Prod.mk.injEq] at h
        exact Or.inl h.2.1.symm
      · exact Option.noConfusion h
      · simp only [Option.some.injEq, Prod.mk.injEq] at h
        exact Or.inl h.2.1.symm
      · split at h
        · simp only [Option.some.injEq, Prod.mk.injEq] at h
          exact Or.inl h.2.1.symm
        · simp only [Option.some.injEq, Prod.mk.injEq] at h
          exact Or.inr ⟨_, h.1.symm, h.2.1.symm⟩

/-- C10: on every outcome of the version route the per-version cache is
either left exactly as it was or receives the single successful insertion
that immediately precedes the 200 response; no failure path (manifest
error, not found, download error, parse error) ever writes to it. -/
theorem c10_cache_insert_only_on_success (cache : VersionCache) (now : Nat)
    (manifestFetch : Except Unit VersionManifest) (detail : DetailFetch)
    (version_id : String) (r : VResponse) (c : VersionCache) (a : Bool)
    (h : get_version_by_id cache now manifestFetch detail version_id = some (r, c, a)) :
    c = cache ∨ ∃ v, r = VResponse.okJson v ∧ c = cacheInsert cache version_id v now := by
  unfold get_version_by_id at h
  split at h
  · split at h
    · simp only [Option.some.injEq, Prod.mk.injEq] at h
      exact Or.inl h.2.1.symm
    · exact get_version_miss_cache_change cache now manifestFetch detail version_id r c a h
  · exact get_version_miss_cache_change cache now manifestFetch detail version_id r c a h

/-- C10 witness: the theorem applied to a request whose manifest fetch
fails; the cache is unchanged. -/
theorem c10_witness :
    ([] : VersionCache) = [] ∨
      ∃ v, VResponse.badGateway "Error obteniendo manifest" = VResponse.okJson v ∧
        ([] : VersionCache) = cacheInsert [] "x" v 0 :=
  c10_cache_insert_only_on_success [] 0 (Except.error ()) DetailFetch.sendErr "x"
    (VResponse.badGateway "Error obteniendo manifest") [] false rfl

end Manifestor
